import Mathlib

/-!
Verification of the PID catalog and acquisition engine of elm327diag
(src/elm327diag.c) against its natural-language specification.

The shallow embedding below models:
- the `obdpid` record and the two decode functions `rpmcalc` / `stdcalc`;
- `setupcommands`, which populates the fixed 25-slot table;
- `query_elm`, whose return codes are 1 (send failure), 2 (receive
  failure) and 0 (success);
- the acquisition loop of `main` (lines 482-508), including the
  `QUERY_OR_ERR` macro whose `return _err;` leaves `main` immediately,
  bypassing the `fclose(out)` that follows the loop.

The transport (`elm327_send_msg` / `elm327_recv_msgs`) is an external
collaborator; it is modelled as an oracle giving, for the k-th query
issued, either a failure kind or a received message (a byte array,
modelled as a function from byte offset to byte value).

C `double` values are modelled as rationals: every computation the
program performs on them (`a`, `((a*256)+b)/4` on byte-valued inputs)
is exact in double precision, so the rational model is faithful.
-/

namespace Elm327

/-- DataType enum of the source: INTEGER = 0, DOUBLE = 1. -/
inductive DataType where
  | INTEGER : DataType
  | DOUBLE : DataType
deriving DecidableEq

/-- Units enum of the source. -/
inductive Units where
  | PERCENT : Units
  | RPM : Units
  | CELSIUS : Units
  | PASCALS : Units
  | KILOMETERSPERHOUR : Units
deriving DecidableEq

/-- Engine-speed decoding, from `rpmcalc` (lines 129-132):
`return ((a*256)+b)/4;`. -/
def rpmcalc (a b : ℚ) : ℚ :=
  ((a * 256) + b) / 4

/-- Identity decoding, from `stdcalc` (lines 134-137): `return a;`. -/
def stdcalc (a _b : ℚ) : ℚ :=
  a

/-- The decode function pointers occurring in the program. The source
stores a `double (*)(double, double)` per slot; only `stdcalc` and
`rpmcalc` are ever assigned, so pointer identity is modelled by this
two-constructor type. -/
inductive CalcFn where
  | std : CalcFn
  | rpm : CalcFn
deriving DecidableEq

/-- Dereference a modelled function pointer. -/
def applyCalc : CalcFn → ℚ → ℚ → ℚ
  | CalcFn.std, a, b => stdcalc a b
  | CalcFn.rpm, a, b => rpmcalc a b

/-- The `struct obdpid` of the source (lines 62-73). -/
structure Obdpid where
  command : ℕ
  min : ℚ
  max : ℚ
  bytes : ℕ
  datatype : DataType
  units : Units
  calculate : CalcFn
  commandname : String
deriving DecidableEq

/-- The per-slot initialization performed by the loop in `main`
(lines 467-471): `o[i].bytes = 0; o[i].calculate = stdcalc;`. The
remaining fields keep whatever (indeterminate) contents the stack
array held, modelled by the argument record. -/
def initSlot (p : Obdpid) : Obdpid :=
  { p with bytes := 0, calculate := CalcFn.std }

/-- Field assignments `setupcommands` (lines 139-413) performs on slot
`i`; slots other than 3, 4, 5, 10, 11, 12, 13 are untouched. -/
def setupSlot (i : ℕ) (p : Obdpid) : Obdpid :=
  match i with
  | 3 => { p with
           datatype := DataType.INTEGER,
           command := 0x03,
           commandname := "Fuel System Status",
           bytes := 1 }
  | 4 => { p with
           datatype := DataType.INTEGER,
           command := 0x04,
           commandname := "Calculated Engine Load",
           min := 0,
           max := 100,
           units := Units.PERCENT,
           bytes := 1 }
  | 5 => { p with
           datatype := DataType.INTEGER,
           command := 0x05,
           commandname := "Engine Coolant Temperature",
           min := -40,
           max := 215,
           units := Units.CELSIUS,
           bytes := 1 }
  | 10 => { p with
            datatype := DataType.INTEGER,
            command := 0x0A,
            commandname := "Fuel Gauge Pressure",
            min := 0,
            max := 765,
            units := Units.PASCALS,
            bytes := 1 }
  | 11 => { p with
            datatype := DataType.INTEGER,
            command := 0x0B,
            commandname := "Intake Manifold Absolute Pressure",
            min := 0,
            max := 255,
            units := Units.PASCALS,
            bytes := 1 }
  | 12 => { p with
            datatype := DataType.DOUBLE,
            command := 0x0C,
            commandname := "Engine Speed",
            min := 0,
            max := 16383.75,
            units := Units.RPM,
            bytes := 2,
            calculate := CalcFn.rpm }
  | 13 => { p with
            datatype := DataType.INTEGER,
            command := 0x0D,
            commandname := "Vehicle Speed",
            min := 0,
            max := 255,
            units := Units.KILOMETERSPERHOUR,
            bytes := 1 }
  | _ => p

/-- `setupcommands` acting on the whole 25-slot table. The source
mutates the slots one field at a time; the net effect on each slot is
`setupSlot`. -/
def setupcommands (o : Fin 25 → Obdpid) : Fin 25 → Obdpid :=
  fun j => setupSlot j.val (o j)

/-- The catalog as `main` builds it: default-initialize all 25 slots,
then run `setupcommands`. `g` supplies the indeterminate initial
contents of the stack array. -/
def buildCatalog (g : Fin 25 → Obdpid) : Fin 25 → Obdpid :=
  setupcommands (fun j => initSlot (g j))

/-- A concrete choice of initial stack contents, used to instantiate
closed statements. -/
def gZero : Fin 25 → Obdpid :=
  fun _ => { command := 0, min := 0, max := 0, bytes := 0,
             datatype := DataType.INTEGER, units := Units.PERCENT,
             calculate := CalcFn.std, commandname := "" }

/-- Outcome of one transport interaction: the send can fail, the
receive can fail (NULL / timeout), or a message arrives. A received
message is modelled as its byte array (offset to byte value). -/
inductive TransResult where
  | sendFail : TransResult
  | recvFail : TransResult
  | ok : (ℕ → ℕ) → TransResult

/-- `query_elm` (lines 415-439): returns 1 if `elm327_send_msg` fails,
2 if `elm327_recv_msgs` returns NULL, and 0 with the received message
otherwise (the flush on success has no observable effect here). -/
def query_elm : TransResult → Except ℕ (ℕ → ℕ)
  | TransResult.sendFail => Except.error 1
  | TransResult.recvFail => Except.error 2
  | TransResult.ok msg => Except.ok msg

/-- The numeric code `query_elm` hands back for a transport outcome
(0 meaning success). -/
def errCode (t : TransResult) : ℕ :=
  match query_elm t with
  | Except.error e => e
  | Except.ok _ => 0

/-- Zero-pad a digit string on the left to six characters, as
`printf("%f")` renders exactly six fractional digits. -/
def padSix (s : String) : String :=
  String.mk (List.replicate (6 - s.length) '0') ++ s

/-- Rendering of a double by `fprintf(out, "%f", r)` for the values
this program produces: nonnegative rationals whose denominator divides
10^6 (identity decodes give integers, the rpm decode gives quarters),
for which %f is exact: integer part, a dot, six fractional digits. -/
def formatF (q : ℚ) : String :=
  let n : ℕ := q.num.toNat * 1000000 / q.den
  Nat.repr (n / 1000000) ++ "." ++ padSix (Nat.repr (n % 1000000))

/-- The line `fprintf(out, "%s, %f\n", o[j].commandname, r)` emits for
entry `p`, where `r = o[j].calculate((double)msg[2], (double)msg[3])`
(lines 494-500). -/
def renderLine (p : Obdpid) (msg : ℕ → ℕ) : String :=
  p.commandname ++ ", " ++ formatF (applyCalc p.calculate ((msg 2 : ℕ) : ℚ) ((msg 3 : ℕ) : ℚ)) ++ "\n"

/-- Observable outcome of the acquisition loop: lines written to the
output file, slots actually queried (in order), and the error code the
loop left `main` with (0 = ran to completion). -/
structure SweepResult where
  lines : List String
  queried : List (Fin 25)
  err : ℕ
deriving DecidableEq

/-- The acquisition loop of `main` (lines 486-502), started at slot
list `l` with `k` queries already issued: skip slots with
`bytes == 0`; otherwise query the transport; on failure
`QUERY_OR_ERR` returns the error code from `main` at once; on success
extract bytes 2 and 3, decode, write the line, continue. -/
def sweepFrom (o : Fin 25 → Obdpid) (tr : ℕ → TransResult) : List (Fin 25) → ℕ → SweepResult
  | [], _ => ⟨[], [], 0⟩
  | j :: rest, k =>
    if 0 < (o j).bytes then
      match query_elm (tr k) with
      | Except.error e => ⟨[], [j], e⟩
      | Except.ok msg =>
        let s := sweepFrom o tr rest (k + 1)
        ⟨renderLine (o j) msg :: s.lines, j :: s.queried, s.err⟩
    else
      sweepFrom o tr rest k

/-- The active slots (`bytes > 0`) in ascending slot order — exactly
the slots the loop `for (j = 0; j < 25; j++) if (o[j].bytes > 0)`
queries. -/
def activeList (o : Fin 25 → Obdpid) : List (Fin 25) :=
  (List.finRange 25).filter (fun j => 0 < (o j).bytes)

/-- Observable outcome of the whole report block of `main` (lines
482-508): the sweep outcome plus the number of `fopen` and `fclose`
calls made on the output sink. -/
structure RunResult where
  lines : List String
  queried : List (Fin 25)
  err : ℕ
  opens : ℕ
  closes : ℕ
deriving DecidableEq

/-- The report block of `main`: `fopen` before the loop (one open,
unconditionally), then the sweep over slots 0..24, then `fclose` —
which is reached only when the loop ran to completion, because
`QUERY_OR_ERR`'s `return _err;` leaves `main` without closing the
sink. -/
def runMain (o : Fin 25 → Obdpid) (tr : ℕ → TransResult) : RunResult :=
  let s := sweepFrom o tr (List.finRange 25) 0
  { lines := s.lines, queried := s.queried, err := s.err,
    opens := 1, closes := if s.err = 0 then 1 else 0 }

/-- The acquisition loop restricted to active slots (no `bytes`
test); proof-structuring companion of `sweepFrom`. -/
def processA (o : Fin 25 → Obdpid) (tr : ℕ → TransResult) : List (Fin 25) → ℕ → SweepResult
  | [], _ => ⟨[], [], 0⟩
  | j :: rest, k =>
    match query_elm (tr k) with
    | Except.error e => ⟨[], [j], e⟩
    | Except.ok msg =>
      let s := processA o tr rest (k + 1)
      ⟨renderLine (o j) msg :: s.lines, j :: s.queried, s.err⟩

/-- Lines the loop writes for slot list `l` when the messages come
from the family `m` (message for the c-th query is `m c`). -/
def renderedLines (o : Fin 25 → Obdpid) (m : ℕ → ℕ → ℕ) : List (Fin 25) → ℕ → List String
  | [], _ => []
  | j :: rest, c => renderLine (o j) (m c) :: renderedLines o m rest (c + 1)

/-- A received message holding payload bytes `x` and `y` at offsets 2
and 3 (other offsets zero). -/
def msgBytes (x y : ℕ) : ℕ → ℕ :=
  fun off => if off = 2 then x else if off = 3 then y else 0

/-- Transport message family of the end-to-end scenario of the spec:
payload (95, 0) for the first request, (0x1A, 0x2C) for the second,
(60, 0) for the third. -/
def scenarioMsgs : ℕ → ℕ → ℕ :=
  fun k => if k = 0 then msgBytes 95 0 else if k = 1 then msgBytes 0x1A 0x2C else msgBytes 60 0

/-- Fully successful transport of the end-to-end scenario. -/
def scenarioTr : ℕ → TransResult :=
  fun k => TransResult.ok (scenarioMsgs k)

/-- Catalog of the end-to-end scenario: only Engine Coolant Temperature
(slot 5, identity, width 1), Engine Speed (slot 12, rpm formula,
width 2) and Vehicle Speed (slot 13, identity, width 1) are active. -/
def scenarioCatalog : Fin 25 → Obdpid :=
  fun j =>
    if j.val = 5 ∨ j.val = 12 ∨ j.val = 13 then buildCatalog gZero j
    else initSlot (gZero j)

/-- Transport that answers the first two queries with an all-zero
payload and fails to send the third request. -/
def wTrFail : ℕ → TransResult :=
  fun k => if k < 2 then TransResult.ok (msgBytes 0 0) else TransResult.sendFail

/-- Transport on which every receive times out / returns NULL. -/
def trAllRecvFail : ℕ → TransResult :=
  fun _ => TransResult.recvFail

/-- Transport on which every query succeeds with an all-zero message. -/
def trAllOk : ℕ → TransResult :=
  fun _ => TransResult.ok (fun _ => 0)

theorem sweepFrom_eq_processA (o : Fin 25 → Obdpid) (tr : ℕ → TransResult) :
    ∀ (l : List (Fin 25)) (k : ℕ),
      sweepFrom o tr l k = processA o tr (l.filter (fun j => 0 < (o j).bytes)) k := by
  intro l
  induction l with
  | nil => intro k; rfl
  | cons j rest ih =>
    intro k
    by_cases hj : 0 < (o j).bytes
    · rw [List.filter_cons_of_pos (by simpa using hj)]
      show (if 0 < (o j).bytes then _ else _) = _
      rw [if_pos hj]
      cases h : query_elm (tr k) with
      | error e => simp [processA, h]
      | ok msg => simp [processA, h, ih]
    · rw [List.filter_cons_of_neg (by simpa using hj)]
      show (if 0 < (o j).bytes then _ else _) = _
      rw [if_neg hj]
      exact ih k

theorem runMain_processA (o : Fin 25 → Obdpid) (tr : ℕ → TransResult) :
    runMain o tr =
      { lines := (processA o tr (activeList o) 0).lines,
        queried := (processA o tr (activeList o) 0).queried,
        err := (processA o tr (activeList o) 0).err,
        opens := 1,
        closes := if (processA o tr (activeList o) 0).err = 0 then 1 else 0 } := by
  unfold runMain
  rw [sweepFrom_eq_processA o tr (List.finRange 25) 0]
  rfl

theorem processA_success (o : Fin 25 → Obdpid) (tr : ℕ → TransResult) (m : ℕ → ℕ → ℕ) :
    ∀ (l : List (Fin 25)) (c : ℕ),
      (∀ i, i < l.length → tr (c + i) = TransResult.ok (m (c + i))) →
      processA o tr l c = ⟨renderedLines o m l c, l, 0⟩ := by
  intro l
  induction l with
  | nil => intro c _; rfl
  | cons j rest ih =>
    intro c h
    have h0 : tr c = TransResult.ok (m c) := by
      have := h 0 (by simp)
      simpa using this
    have hrest : ∀ i, i < rest.length → tr (c + 1 + i) = TransResult.ok (m (c + 1 + i)) := by
      intro i hi
      have := h (i + 1) (by simpa using Nat.succ_lt_succ hi)
      have hc : c + (i + 1) = c + 1 + i := by omega
      rw [hc] at this
      exact this
    show processA o tr (j :: rest) c = _
    rw [processA, h0]
    show (let s := processA o tr rest (c + 1); _ : SweepResult) = _
    rw [show processA o tr rest (c + 1) = ⟨renderedLines o m rest (c + 1), rest, 0⟩ from
      ih (c + 1) hrest]
    rfl

theorem processA_fail (o : Fin 25 → Obdpid) (tr : ℕ → TransResult) (m : ℕ → ℕ → ℕ) :
    ∀ (l : List (Fin 25)) (c k : ℕ),
      k < l.length →
      (∀ i, i < k → tr (c + i) = TransResult.ok (m (c + i))) →
      (tr (c + k) = TransResult.sendFail ∨ tr (c + k) = TransResult.recvFail) →
      processA o tr l c =
        ⟨renderedLines o m (l.take k) c, l.take (k + 1), errCode (tr (c + k))⟩ := by
  intro l
  induction l with
  | nil =>
    intro c k hk
    simp at hk
  | cons j rest ih =>
    intro c k hk hok hfail
    cases k with
    | zero =>
      rcases hfail with hf | hf
      · rw [show c + 0 = c from rfl] at hf
        show processA o tr (j :: rest) c = _
        rw [processA, hf]
        simp [renderedLines, errCode, query_elm, hf]
      · rw [show c + 0 = c from rfl] at hf
        show processA o tr (j :: rest) c = _
        rw [processA, hf]
        simp [renderedLines, errCode, query_elm, hf]
    | succ n =>
      have h0 : tr c = TransResult.ok (m c) := by
        simpa using hok 0 (Nat.succ_pos n)
      have hshift : c + (n + 1) = c + 1 + n := by omega
      have hokrest : ∀ i, i < n → tr (c + 1 + i) = TransResult.ok (m (c + 1 + i)) := by
        intro i hi
        have := hok (i + 1) (by omega)
        have hc : c + (i + 1) = c + 1 + i := by omega
        rw [hc] at this
        exact this
      have hfailrest :
          tr (c + 1 + n) = TransResult.sendFail ∨ tr (c + 1 + n) = TransResult.recvFail := by
        rw [← hshift]
        exact hfail
      show processA o tr (j :: rest) c = _
      rw [processA, h0]
      show (let s := processA o tr rest (c + 1); (⟨renderLine (o j) (m c) :: s.lines, j :: s.queried, s.err⟩ : SweepResult)) = _
      rw [ih (c + 1) n (by simpa using Nat.lt_of_succ_lt_succ (by simpa using hk)) hokrest hfailrest]
      simp [renderedLines, hshift]

theorem renderedLines_length (o : Fin 25 → Obdpid) (m : ℕ → ℕ → ℕ) :
    ∀ (l : List (Fin 25)) (c : ℕ), (renderedLines o m l c).length = l.length := by
  intro l
  induction l with
  | nil => intro c; rfl
  | cons j rest ih => intro c; simp [renderedLines, ih]

theorem renderedLines_getElem (o : Fin 25 → Obdpid) (m : ℕ → ℕ → ℕ) :
    ∀ (l : List (Fin 25)) (c i : ℕ) (j : Fin 25),
      l[i]? = some j →
      (renderedLines o m l c)[i]? = some (renderLine (o j) (m (c + i))) := by
  intro l
  induction l with
  | nil =>
    intro c i j h
    simp at h
  | cons j0 rest ih =>
    intro c i j h
    cases i with
    | zero =>
      simp at h
      simp [renderedLines, h]
    | succ n =>
      simp at h
      have := ih (c + 1) n j (by simpa using h)
      simp [renderedLines]
      rw [show c + (n + 1) = c + 1 + n by omega]
      exact this

theorem formatF_natCast (n : ℕ) : formatF (n : ℚ) = Nat.repr n ++ "." ++ "000000" := by
  have h1 : ((n : ℚ)).num.toNat * 1000000 / ((n : ℚ)).den = n * 1000000 := by
    simp
  have h2 : n * 1000000 / 1000000 = n := by omega
  have h3 : n * 1000000 % 1000000 = 0 := by omega
  unfold formatF
  simp only [h1, h2, h3]
  rfl

/-- C8: the two-byte engine-speed decode function satisfies
`rpmcalc a b = ((a * 256) + b) / 4` for every pair of rational inputs,
and in particular `rpmcalc 0x1A 0x2C = 1675`. -/
theorem rpm_formula_eval :
    ∀ a b : ℚ, rpmcalc a b = ((a * 256) + b) / 4 ∧ rpmcalc 0x1A 0x2C = 1675 := by
  intro a b
  refine ⟨rfl, ?_⟩
  norm_num [rpmcalc]

theorem setupcommands_twice (o : Fin 25 → Obdpid) :
    setupcommands (setupcommands o) = setupcommands o := by
  funext j
  fin_cases j <;> rfl

/-- C9: catalog construction is idempotent and deterministic: running
`setupcommands` any positive number of times on a slot table produces
the same table as running it once. -/
theorem setupcommands_idempotent (o : Fin 25 → Obdpid) (n : ℕ) :
    setupcommands^[n + 1] o = setupcommands o := by
  induction n with
  | zero => rfl
  | succ n ih =>
    rw [Function.iterate_succ_apply', ih, setupcommands_twice]

/-- C10: for payload bytes a, b in [0, 255], the engine-speed decode
`rpmcalc a b = ((a*256)+b)/4` lies within the validRange [min, max] =
[0, 16383.75] declared for the Engine Speed entry (slot 12) of the
built catalog. -/
theorem rpm_within_valid_range (g : Fin 25 → Obdpid) (a b : ℚ)
    (ha0 : 0 ≤ a) (ha : a ≤ 255) (hb0 : 0 ≤ b) (hb : b ≤ 255) :
    (buildCatalog g 12).min ≤ rpmcalc a b ∧ rpmcalc a b ≤ (buildCatalog g 12).max := by
  have hmin : (buildCatalog g 12).min = 0 := rfl
  have hmax : (buildCatalog g 12).max = 16383.75 := rfl
  rw [hmin, hmax]
  unfold rpmcalc
  constructor
  · apply div_nonneg _ (by norm_num)
    nlinarith
  · rw [div_le_iff₀ (by norm_num : (0 : ℚ) < 4)]
    nlinarith

theorem rpm_within_valid_range_witness :
    (buildCatalog gZero 12).min ≤ rpmcalc 26 44 ∧
      rpmcalc 26 44 ≤ (buildCatalog gZero 12).max :=
  rpm_within_valid_range gZero 26 44 (by norm_num) (by norm_num) (by norm_num) (by norm_num)

/-- C7: the identity decode returns its first argument unchanged for
every pair of inputs (in particular for a = 100), and every built
catalog slot other than slot 12 (Engine Speed) carries the identity
rule, so its decoded value equals the first payload byte. -/
theorem identity_rule_everywhere_but_rpm (g : Fin 25 → Obdpid) (j : Fin 25)
    (hj : j.val ≠ 12) (a b : ℚ) :
    stdcalc a b = a ∧ (buildCatalog g j).calculate = CalcFn.std ∧
      applyCalc (buildCatalog g j).calculate a b = a := by
  have hstd : (buildCatalog g j).calculate = CalcFn.std := by
    fin_cases j <;> first | rfl | exact absurd rfl hj
  refine ⟨rfl, hstd, ?_⟩
  rw [hstd]
  rfl

theorem identity_rule_everywhere_but_rpm_witness :
    stdcalc 100 7 = 100 ∧ (buildCatalog gZero 5).calculate = CalcFn.std ∧
      applyCalc (buildCatalog gZero 5).calculate 100 7 = 100 :=
  identity_rule_everywhere_but_rpm gZero 5 (by decide) 100 7

/-- C5 counterexample: after default initialization of all 25 slots
and `setupcommands`, the number of active slots (payloadWidth > 0) is
not 8 (it is 7: the source populates slots 3, 4, 5, 10, 11, 12, 13). -/
theorem active_count_ne_eight : (activeList (buildCatalog gZero)).length ≠ 8 := by
  decide

/-- C5 (amended): after default initialization of all 25 slots
followed by `setupcommands`, exactly 7 catalog slots are active
(payloadWidth > 0): fuel system status, calculated engine load,
coolant temperature, fuel gauge pressure, intake manifold absolute
pressure, engine speed, and vehicle speed — whatever the
indeterminate initial contents `g` of the stack array were. -/
theorem active_slots_seven (g : Fin 25 → Obdpid) :
    (activeList (buildCatalog g)).length = 7 ∧
      (activeList (buildCatalog g)).map (fun j => (buildCatalog g j).commandname) =
        ["Fuel System Status", "Calculated Engine Load", "Engine Coolant Temperature",
         "Fuel Gauge Pressure", "Intake Manifold Absolute Pressure", "Engine Speed",
         "Vehicle Speed"] := by
  have h : activeList (buildCatalog g) = [(3 : Fin 25), 4, 5, 10, 11, 12, 13] := rfl
  rw [h]
  exact ⟨rfl, rfl⟩

/-- C3 counterexample: in the run where the first receive fails, the
sweep aborts on the first active entry and the sink — opened before
the sweep — is never closed: `QUERY_OR_ERR`'s `return _err;` leaves
`main` before the `fclose(out)` that follows the loop. -/
theorem sink_not_closed_on_abort_cex :
    (runMain (buildCatalog gZero) trAllRecvFail).closes = 0 ∧
      (runMain (buildCatalog gZero) trAllRecvFail).err = 2 := by
  exact ⟨rfl, rfl⟩

/-- C3 (amended): in every run that reaches the acquisition sweep, the
output sink is opened (once, before the sweep begins); it is closed
exactly once when the sweep runs to completion, and it is not closed
by the program when a transport failure aborts the sweep, because the
error path returns from `main` before the `fclose`. -/
theorem sink_open_close_counts (o : Fin 25 → Obdpid) (tr : ℕ → TransResult) :
    (runMain o tr).opens = 1 ∧
      (runMain o tr).closes = (if (runMain o tr).err = 0 then 1 else 0) :=
  ⟨rfl, rfl⟩

/-- C6: in every sweep that runs to completion, exactly the catalog
entries with payloadWidth > 0 are queried, in ascending slot order,
and each produces one output line; a slot with payloadWidth = 0 is
never queried. -/
theorem active_entries_exactly_queried (o : Fin 25 → Obdpid) (tr : ℕ → TransResult)
    (m : ℕ → ℕ → ℕ)
    (hok : ∀ i, i < (activeList o).length → tr i = TransResult.ok (m i)) :
    (runMain o tr).queried = activeList o ∧
      (runMain o tr).err = 0 ∧
      (runMain o tr).lines.length = (activeList o).length ∧
      ∀ j : Fin 25, (o j).bytes = 0 → j ∉ (runMain o tr).queried := by
  have hok0 : ∀ i, i < (activeList o).length →
      tr (0 + i) = TransResult.ok (m (0 + i)) := by
    intro i hi
    simpa using hok i hi
  have h := processA_success o tr m (activeList o) 0 hok0
  rw [runMain_processA]
  refine ⟨?_, ?_, ?_, ?_⟩
  · show (processA o tr (activeList o) 0).queried = activeList o
    rw [h]
  · show (processA o tr (activeList o) 0).err = 0
    rw [h]
  · show (processA o tr (activeList o) 0).lines.length = (activeList o).length
    rw [h]
    exact renderedLines_length o m (activeList o) 0
  · intro j hj
    show j ∉ (processA o tr (activeList o) 0).queried
    rw [h]
    show j ∉ activeList o
    intro hmem
    simp [activeList, List.mem_filter] at hmem
    omega

theorem active_entries_exactly_queried_witness :
    (runMain (buildCatalog gZero) trAllOk).queried = activeList (buildCatalog gZero) ∧
      (runMain (buildCatalog gZero) trAllOk).err = 0 := by
  have h := active_entries_exactly_queried (buildCatalog gZero) trAllOk
    (fun _ _ => 0) (fun i _ => rfl)
  exact ⟨h.1, h.2.1⟩

/-- C4: for every active catalog entry (the i-th active entry being
slot j), the dispatcher takes the received message's bytes at offsets
2 and 3 — regardless of the entry's declared payloadWidth — and
passes them, in that order, as the two arguments of the entry's decode
rule; the emitted line renders exactly that value. -/
theorem payload_offsets_two_three (o : Fin 25 → Obdpid) (tr : ℕ → TransResult)
    (m : ℕ → ℕ → ℕ)
    (hok : ∀ i, i < (activeList o).length → tr i = TransResult.ok (m i))
    (i : ℕ) (j : Fin 25) (hj : (activeList o)[i]? = some j) :
    (runMain o tr).lines[i]? =
      some ((o j).commandname ++ ", " ++
        formatF (applyCalc (o j).calculate ((m i 2 : ℕ) : ℚ) ((m i 3 : ℕ) : ℚ)) ++ "\n") := by
  have hok0 : ∀ a, a < (activeList o).length →
      tr (0 + a) = TransResult.ok (m (0 + a)) := by
    intro a ha
    simpa using hok a ha
  have h := processA_success o tr m (activeList o) 0 hok0
  rw [runMain_processA]
  show (processA o tr (activeList o) 0).lines[i]? = _
  rw [h]
  show (renderedLines o m (activeList o) 0)[i]? = _
  have hg := renderedLines_getElem o m (activeList o) 0 i j hj
  rw [Nat.zero_add] at hg
  rw [hg]
  rfl

theorem payload_offsets_two_three_witness :
    (runMain scenarioCatalog scenarioTr).lines[1]? = some "Engine Speed, 1675.000000\n" := by
  have h := payload_offsets_two_three scenarioCatalog scenarioTr scenarioMsgs
    (fun i _ => rfl) 1 12 (by decide)
  rw [h]
  show some ("Engine Speed" ++ ", " ++
    formatF (applyCalc CalcFn.rpm ((26 : ℕ) : ℚ) ((44 : ℕ) : ℚ)) ++ "\n") = _
  rw [show applyCalc CalcFn.rpm ((26 : ℕ) : ℚ) ((44 : ℕ) : ℚ) = ((1675 : ℕ) : ℚ) from by
    norm_num [applyCalc, rpmcalc]]
  rw [formatF_natCast]
  decide

/-- C1: if the transport fails (send or receive) on the query for the
(k+1)-st active entry, after the first k succeeded, then the report
holds exactly the k lines of the first k active entries in catalog
order, only the first k+1 active entries were ever queried (none
retried, none beyond the failing one), and `main` returns the
`query_elm` code of the failing step — 1 for a send failure, 2 for a
receive failure, so the two are distinguished. -/
theorem abort_prefix_report (o : Fin 25 → Obdpid) (tr : ℕ → TransResult)
    (m : ℕ → ℕ → ℕ) (k : ℕ)
    (hk : k < (activeList o).length)
    (hok : ∀ i, i < k → tr i = TransResult.ok (m i))
    (hfail : tr k = TransResult.sendFail ∨ tr k = TransResult.recvFail) :
    (runMain o tr).lines = renderedLines o m ((activeList o).take k) 0 ∧
      (runMain o tr).lines.length = k ∧
      (runMain o tr).queried = (activeList o).take (k + 1) ∧
      (runMain o tr).err = errCode (tr k) ∧
      errCode TransResult.sendFail = 1 ∧ errCode TransResult.recvFail = 2 := by
  have hok0 : ∀ i, i < k → tr (0 + i) = TransResult.ok (m (0 + i)) := by
    intro i hi
    simpa using hok i hi
  have hfail0 : tr (0 + k) = TransResult.sendFail ∨ tr (0 + k) = TransResult.recvFail := by
    simpa using hfail
  have h := processA_fail o tr m (activeList o) 0 k hk hok0 hfail0
  rw [runMain_processA]
  refine ⟨?_, ?_, ?_, ?_, rfl, rfl⟩
  · show (processA o tr (activeList o) 0).lines = _
    rw [h]
  · show (processA o tr (activeList o) 0).lines.length = k
    rw [h]
    show (renderedLines o m ((activeList o).take k) 0).length = k
    rw [renderedLines_length]
    rw [List.length_take]
    omega
  · show (processA o tr (activeList o) 0).queried = _
    rw [h]
  · show (processA o tr (activeList o) 0).err = errCode (tr k)
    rw [h]
    show errCode (tr (0 + k)) = errCode (tr k)
    rw [Nat.zero_add]

theorem abort_prefix_report_witness :
    (runMain (buildCatalog gZero) wTrFail).lines.length = 2 ∧
      (runMain (buildCatalog gZero) wTrFail).err = 1 := by
  have h := abort_prefix_report (buildCatalog gZero) wTrFail (fun _ => msgBytes 0 0) 2
    (by decide)
    (by intro i hi; interval_cases i <;> rfl)
    (Or.inl rfl)
  refine ⟨h.2.1, ?_⟩
  rw [h.2.2.2.1]
  rfl

/-- C2: end-to-end scenario. For the catalog whose active entries are
Engine Coolant Temperature (identity, width 1), Engine Speed (rpm
formula, width 2) and Vehicle Speed (identity, width 1), with the
transport returning payload bytes (95, 0), (0x1A, 0x2C) and (60, 0)
for the three requests in order, the sweep writes exactly the three
expected lines, one per Reading in production order, each of the form
name-comma-value with a six-decimal rendering and a trailing newline,
and the run completes without error. -/
theorem end_to_end_scenario :
    (runMain scenarioCatalog scenarioTr).lines =
      ["Engine Coolant Temperature, 95.000000\n",
       "Engine Speed, 1675.000000\n",
       "Vehicle Speed, 60.000000\n"] ∧
      (runMain scenarioCatalog scenarioTr).err = 0 := by
  have hok0 : ∀ a, a < (activeList scenarioCatalog).length →
      scenarioTr (0 + a) = TransResult.ok (scenarioMsgs (0 + a)) := fun a _ => rfl
  have h := processA_success scenarioCatalog scenarioTr scenarioMsgs
    (activeList scenarioCatalog) 0 hok0
  have hact : activeList scenarioCatalog = [(5 : Fin 25), 12, 13] := by decide
  rw [runMain_processA]
  constructor
  · show (processA scenarioCatalog scenarioTr (activeList scenarioCatalog) 0).lines = _
    rw [h]
    show renderedLines scenarioCatalog scenarioMsgs (activeList scenarioCatalog) 0 = _
    rw [hact]
    show [renderLine (scenarioCatalog 5) (scenarioMsgs 0),
          renderLine (scenarioCatalog 12) (scenarioMsgs 1),
          renderLine (scenarioCatalog 13) (scenarioMsgs 2)] = _
    have l1 : renderLine (scenarioCatalog 5) (scenarioMsgs 0) =
        "Engine Coolant Temperature, 95.000000\n" := by
      show "Engine Coolant Temperature" ++ ", " ++
        formatF (applyCalc CalcFn.std ((95 : ℕ) : ℚ) ((0 : ℕ) : ℚ)) ++ "\n" = _
      rw [show applyCalc CalcFn.std ((95 : ℕ) : ℚ) ((0 : ℕ) : ℚ) = ((95 : ℕ) : ℚ) from rfl]
      rw [formatF_natCast]
      decide
    have l2 : renderLine (scenarioCatalog 12) (scenarioMsgs 1) =
        "Engine Speed, 1675.000000\n" := by
      show "Engine Speed" ++ ", " ++
        formatF (applyCalc CalcFn.rpm ((26 : ℕ) : ℚ) ((44 : ℕ) : ℚ)) ++ "\n" = _
      rw [show applyCalc CalcFn.rpm ((26 : ℕ) : ℚ) ((44 : ℕ) : ℚ) = ((1675 : ℕ) : ℚ) from by
        norm_num [applyCalc, rpmcalc]]
      rw [formatF_natCast]
      decide
    have l3 : renderLine (scenarioCatalog 13) (scenarioMsgs 2) =
        "Vehicle Speed, 60.000000\n" := by
      show "Vehicle Speed" ++ ", " ++
        formatF (applyCalc CalcFn.std ((60 : ℕ) : ℚ) ((0 : ℕ) : ℚ)) ++ "\n" = _
      rw [show applyCalc CalcFn.std ((60 : ℕ) : ℚ) ((0 : ℕ) : ℚ) = ((60 : ℕ) : ℚ) from rfl]
      rw [formatF_natCast]
      decide
    rw [l1, l2, l3]
  · show (processA scenarioCatalog scenarioTr (activeList scenarioCatalog) 0).err = 0
    rw [h]
